import Mathlib

/-!
Verification of the xscraper repository's consolidation / rewrite / sync
pipeline (src/analyzer.py) and of the twitter scraper's state handling
(src/scraper.py).  The Python code is shallowly embedded: DataFrames become
lists of typed records whose fields are the sheet's string cells, pandas
column operations become list operations, the one regular expression of the
ownership filter is hand-compiled to an executable character-level predicate,
and the external Gemini / Google-Sheets / Telegram services are parameters
of the embedded functions.
-/

namespace Xscraper

/-- Python `\w` (ASCII range): letters, digits and underscore.  The source
regexes are applied to tweet text; the ASCII fragment is what the claims
exercise. -/
def isWordChar (c : Char) : Bool := c.isAlphanum || c == '_'

/-- Substring test, embedding Python's `in` / `re` search of a literal
pattern: `hasSub n h` is true iff `n` occurs contiguously in `h`. -/
def hasSub (n : List Char) : List Char → Bool
  | [] => n.isPrefixOf []
  | c :: t => n.isPrefixOf (c :: t) || hasSub n t

/-- Non-overlapping occurrence count, embedding Python's `str.count`
(left-to-right, each match consumes its characters).  `fuel` bounds the
recursion; callers pass the haystack length. -/
def countSubAux (n : List Char) : Nat → List Char → Nat
  | 0, _ => 0
  | _ + 1, [] => 0
  | fuel + 1, c :: t =>
    if n.isPrefixOf (c :: t) && !n.isEmpty then
      1 + countSubAux n fuel (List.drop n.length (c :: t))
    else
      countSubAux n fuel t

/-- Python `str.count` for a non-empty needle. -/
def countSub (n h : List Char) : Nat := countSubAux n h.length h

/-- Python `str.startswith`: prefix test on the character sequences. -/
def strStarts (p s : String) : Bool := p.toList.isPrefixOf s.toList

/-- Python `str.strip()` on a character list: drop leading and trailing
whitespace. -/
def trimList (l : List Char) : List Char :=
  ((l.dropWhile Char.isWhitespace).reverse.dropWhile Char.isWhitespace).reverse

/-- Python `str.strip()`. -/
def pyStrip (s : String) : String := String.mk (trimList s.toList)

/-- Removal of every non-overlapping occurrence of `n`, left to right:
Python `str.replace(n, '')`.  `fuel` bounds the recursion; callers pass
the haystack length. -/
def removeSubAux (n : List Char) : Nat → List Char → List Char
  | 0, l => l
  | _ + 1, [] => []
  | fuel + 1, c :: t =>
    if n.isPrefixOf (c :: t) && !n.isEmpty then
      removeSubAux n fuel (List.drop n.length (c :: t))
    else
      c :: removeSubAux n fuel t

/-- Python `str.replace(n, '')` for a non-empty pattern. -/
def removeSub (n h : List Char) : List Char := removeSubAux n h.length h

/-- Python `str.split()` (no argument): the maximal non-whitespace runs,
empties dropped.  `acc` holds the current token reversed. -/
def wsTokensAux : List Char → List Char → List (List Char)
  | acc, [] => if acc.isEmpty then [] else [acc.reverse]
  | acc, c :: t =>
    if c.isWhitespace then
      if acc.isEmpty then wsTokensAux [] t
      else acc.reverse :: wsTokensAux [] t
    else wsTokensAux (c :: acc) t

/-- Python `str.split()`. -/
def wsTokens (l : List Char) : List (List Char) := wsTokensAux [] l

/-- Python `' '.join(tokens)`. -/
def joinSpace : List (List Char) → List Char
  | [] => []
  | [t] => t
  | t :: rest => t ++ ' ' :: joinSpace rest

/-- Python `sep.join(parts)` on strings. -/
def joinSep (sep : String) : List String → String
  | [] => ""
  | [s] => s
  | s :: rest => s ++ sep ++ joinSep sep rest

/-- Lexicographic (code-point) string order, the order Python and pandas
use when comparing the string cells: `strListLe a b` is `a <= b`. -/
def strListLe : List Char → List Char → Bool
  | [], _ => true
  | _ :: _, [] => false
  | a :: as, b :: bs =>
    if a.toNat < b.toNat then true
    else if b.toNat < a.toNat then false
    else strListLe as bs

/-- Strict lexicographic (code-point) string order: `a < b`. -/
def strListLt : List Char → List Char → Bool
  | _, [] => false
  | [], _ :: _ => true
  | a :: as, b :: bs =>
    if a.toNat < b.toNat then true
    else if b.toNat < a.toNat then false
    else strListLt as bs

/-- One raw source row as the analyzer sees it after pre-processing
(analyzer.py step 2): text columns are strings, the engagement columns have
been coerced to integers by `pd.to_numeric(...).fillna(0).astype(int)`. -/
structure SrcRow where
  originalUsername : String
  displayName : String
  firstTweetTimestamp : String
  tweetText : String
  firstTweetURL : String
  likes : Int
  retweets : Int
  replies : Int
  quotes : Int
  bookmarks : Int
  views : Int
  tweetType : String
  conversationId : String
deriving DecidableEq, Repr

/-- One row of the analyzed / target schema (`TARGET_COLUMNS`,
analyzer.py lines 63-74).  All cells are strings, as in the CSV local log
and the Google Sheet; `firstTweetURL` is an `Option` so that a pandas NA
cell (`none`) is distinguishable from the empty string (`some ""`), which
is what `Series.notna` distinguishes. -/
structure AnalyzedRow where
  processedTimestamp : String
  originalUsername : String
  originalDisplayName : String
  firstTweetTimestamp : String
  combinedOriginalText : String
  firstTweetURL : Option String
  likes : String
  retweets : String
  replies : String
  quotes : String
  bookmarks : String
  views : String
  contentType : String
  conversationId : String
  rewrittenEN : String
  rewrittenRU : String
  sourceRowCount : String
  platform : String
  subreddit : String
  score : String
  numComments : String
  postId : String
deriving DecidableEq, Repr

/-- Serialization of a row in `TARGET_COLUMNS` order, as produced by
`df_to_upload[TARGET_COLUMNS].fillna('').values.tolist()`
(analyzer.py lines 742-743).  An NA URL cell becomes `''` via `fillna`. -/
def rowToTargetList (r : AnalyzedRow) : List String :=
  [r.processedTimestamp, r.originalUsername, r.originalDisplayName,
   r.firstTweetTimestamp, r.combinedOriginalText, r.firstTweetURL.getD "",
   r.likes, r.retweets, r.replies, r.quotes, r.bookmarks, r.views,
   r.contentType, r.conversationId, r.rewrittenEN, r.rewrittenRU,
   r.sourceRowCount, r.platform, r.subreddit, r.score, r.numComments,
   r.postId]

/-- The row predicate inside `load_processed_urls` (analyzer.py 178-184):
URL cell not NA (`Series.notna`; the empty string is not NA), both rewrite
cells non-empty, and neither rewrite cell starts with `'Error:'`. -/
def processedRow (r : AnalyzedRow) : Bool :=
  r.firstTweetURL.isSome &&
  r.rewrittenEN != "" && r.rewrittenRU != "" &&
  !(strStarts "Error:" r.rewrittenEN) && !(strStarts "Error:" r.rewrittenRU)

/-- `load_processed_urls` (analyzer.py 167-190): the URLs of the rows that
pass `processedRow`.  Python builds a `set`; the embedding returns the list
of those URLs, and the claims are stated through membership. -/
def loadProcessedUrls (df : List AnalyzedRow) : List String :=
  (df.filter processedRow).filterMap (fun r => r.firstTweetURL)

/-- Modelled from the spec: the success predicate as the specification words
it — "`canonical_url` is non-empty AND both rewrite fields are non-empty AND
neither begins with the error sentinel prefix".  Compare with
`processedRow`, which only requires the URL cell to be non-NA. -/
def specProcessedRow (r : AnalyzedRow) : Bool :=
  (match r.firstTweetURL with
   | some u => u != ""
   | none => false) &&
  r.rewrittenEN != "" && r.rewrittenRU != "" &&
  !(strStarts "Error:" r.rewrittenEN) && !(strStarts "Error:" r.rewrittenRU)

/-- Lower-casing a character list, embedding the `re.IGNORECASE` flag
(`case=False` in `str.contains`). -/
def lowerList (l : List Char) : List Char := l.map Char.toLower

/-- The zero-width test `(?:author\b)` at the start of `rest`, where the
character to the left of `rest` is the literal `'@'` of the pattern:
`author` must be a (case-insensitive) prefix of `rest` and a word boundary
must follow it.  A word boundary holds iff exactly one of the two adjacent
characters is a word character; to the left of position `|author|` stands
the last character of `author` (or the `'@'`, a non-word character, when
`author` is empty), to the right the next character of `rest` (end of
string counts as non-word). -/
def authorMentionAt (author rest : List Char) : Bool :=
  (lowerList author).isPrefixOf (lowerList rest) &&
  (let leftWord :=
     match author.getLast? with
     | some c => isWordChar c
     | none => false
   let rightWord :=
     match rest.drop author.length with
     | c :: _ => isWordChar c
     | [] => false
   leftWord != rightWord)

/-- Hand-compiled semantics of the ownership-filter regex
(analyzer.py line 397, applied with `case=False` at line 398):

`rf'^\s*@(?!(?:{re.escape(author_username)}\b))([\w]{1,15})'`

A text matches (and the row is dropped) iff after the leading whitespace
run the text starts with `'@'`, the character after the `'@'` is a word
character (so `[\w]{1,15}` can match), and the negative lookahead holds,
i.e. the text after the `'@'` does not start with the author's username
followed by a word boundary (case-insensitive).  `\s*` must consume the
whole leading whitespace run because `'@'` is not a whitespace character,
and `[\w]{1,15}` has no trailing boundary requirement, so it matches iff at
least one word character follows. -/
def replyToOther (author : String) (text : String) : Bool :=
  match text.toList.dropWhile Char.isWhitespace with
  | [] => false
  | c :: rest =>
    c == '@' &&
    (match rest with
     | d :: _ => isWordChar d
     | [] => false) &&
    !(authorMentionAt author.toList rest)

theorem strListLe_total : ∀ a b, strListLe a b = true ∨ strListLe b a = true
  | [], _ => Or.inl rfl
  | _ :: _, [] => Or.inr rfl
  | a :: as, b :: bs => by
    by_cases h1 : a.toNat < b.toNat
    · left
      simp [strListLe, h1]
    · by_cases h2 : b.toNat < a.toNat
      · right
        simp [strListLe, h2]
      · rcases strListLe_total as bs with h | h
        · left
          simp [strListLe, h1, h2, h]
        · right
          simp [strListLe, h1, h2, h]

theorem strListLe_trans : ∀ a b c, strListLe a b = true →
    strListLe b c = true → strListLe a c = true
  | [], _, _, _, _ => rfl
  | _ :: _, [], _, h, _ => by simp [strListLe] at h
  | _ :: _, _ :: _, [], _, h => by simp [strListLe] at h
  | a :: as, b :: bs, c :: cs, h1, h2 => by
    simp only [strListLe] at h1 h2 ⊢
    by_cases hab : a.toNat < b.toNat
    · by_cases hbc : b.toNat < c.toNat
      · simp [show a.toNat < c.toNat from by omega]
      · by_cases hcb : c.toNat < b.toNat
        · rw [if_neg hbc, if_pos hcb] at h2
          simp at h2
        · simp [show a.toNat < c.toNat from by omega]
    · by_cases hba : b.toNat < a.toNat
      · rw [if_neg hab, if_pos hba] at h1
        simp at h1
      · rw [if_neg hab, if_neg hba] at h1
        by_cases hbc : b.toNat < c.toNat
        · simp [show a.toNat < c.toNat from by omega]
        · by_cases hcb : c.toNat < b.toNat
          · rw [if_neg hbc, if_pos hcb] at h2
            simp at h2
          · rw [if_neg hbc, if_neg hcb] at h2
            have hac : ¬ a.toNat < c.toNat := by omega
            have hca : ¬ c.toNat < a.toNat := by omega
            rw [if_neg hac, if_neg hca]
            exact strListLe_trans as bs cs h1 h2

/-- Ordering used by `group.sort_values(by='First Tweet Timestamp')`
(analyzer.py line 386): the timestamp cells are compared as strings
(code-point lexicographic, Python's string order). -/
def tsLe (a b : SrcRow) : Prop :=
  strListLe a.firstTweetTimestamp.toList b.firstTweetTimestamp.toList = true

instance : DecidableRel tsLe := fun _ _ =>
  inferInstanceAs (Decidable (_ = true))

instance : IsTotal SrcRow tsLe :=
  ⟨fun _ _ => strListLe_total _ _⟩

instance : IsTrans SrcRow tsLe :=
  ⟨fun _ _ _ h h' => strListLe_trans _ _ _ h h'⟩

/-- `group.sort_values(by='First Tweet Timestamp')`: sort the rows of one
conversation group by the raw timestamp string. -/
def sortByTs (g : List SrcRow) : List SrcRow := List.insertionSort tsLe g

/-- The surviving ("core") rows of one `(author, conversation_id)` group:
sort by timestamp, then drop every row whose text matches the
reply-to-another-user pattern (analyzer.py lines 386-398). -/
def coreRows (author : String) (g : List SrcRow) : List SrcRow :=
  (sortByTs g).filter (fun r => !(replyToOther author r.tweetText))

/-- The thread separator used for `combined_text` (analyzer.py line 411). -/
def thSep : String := "\n\n---\n\n"

/-- The thread branch of the consolidator (analyzer.py lines 408-436):
more than one surviving row.  Texts of all surviving rows are joined with
`thSep`, the content type is forced to `"Thread"`, engagement metrics and
timestamp come from the first surviving row, and `Source Row Count` is the
number of surviving rows. -/
def mkThreadRow (now platform convId : String) (core : List SrcRow)
    (first : SrcRow) : AnalyzedRow :=
  { processedTimestamp := now
    originalUsername := first.originalUsername
    originalDisplayName := first.displayName
    firstTweetTimestamp := first.firstTweetTimestamp
    combinedOriginalText := joinSep thSep (core.map (·.tweetText))
    firstTweetURL := some first.firstTweetURL
    likes := toString first.likes
    retweets := toString first.retweets
    replies := toString first.replies
    quotes := toString first.quotes
    bookmarks := toString first.bookmarks
    views := toString first.views
    contentType := "Thread"
    conversationId := convId
    rewrittenEN := ""
    rewrittenRU := ""
    sourceRowCount := toString core.length
    platform := platform
    subreddit := ""
    score := ""
    numComments := ""
    postId := "" }

/-- The single-row branch of the consolidator (analyzer.py lines 437-464):
exactly one surviving row; its original `Tweet Type` tag is kept. -/
def mkSingleRow (now platform convId : String) (single : SrcRow) :
    AnalyzedRow :=
  { processedTimestamp := now
    originalUsername := single.originalUsername
    originalDisplayName := single.displayName
    firstTweetTimestamp := single.firstTweetTimestamp
    combinedOriginalText := single.tweetText
    firstTweetURL := some single.firstTweetURL
    likes := toString single.likes
    retweets := toString single.retweets
    replies := toString single.replies
    quotes := toString single.quotes
    bookmarks := toString single.bookmarks
    views := toString single.views
    contentType := single.tweetType
    conversationId := convId
    rewrittenEN := ""
    rewrittenRU := ""
    sourceRowCount := "1"
    platform := platform
    subreddit := ""
    score := ""
    numComments := ""
    postId := "" }

/-- Consolidation of one `(author, conversation_id)` group
(analyzer.py lines 384-464): `none` when every row of the group was a reply
to another user (the group is discarded, line 400-403), a thread row when
more than one row survives, a single row otherwise. -/
def consolidateGroup (now platform author convId : String)
    (g : List SrcRow) : Option AnalyzedRow :=
  match coreRows author g with
  | [] => none
  | [single] => some (mkSingleRow now platform convId single)
  | first :: _ :: _ => some (mkThreadRow now platform convId (coreRows author g) first)

/-- The distinct group keys of the source frame, one per group.
(`df.groupby` emits groups in sorted key order; `dedup` emits another
order, but no claim depends on the emission order of distinct groups, only
on each group's content, which `groupOf` collects from the whole frame.) -/
def groupKeys (df : List SrcRow) : List (String × String) :=
  (df.map (fun r => (r.originalUsername, r.conversationId))).dedup

/-- The rows of one group: `groupby` collects, in original order, every row
whose `(Original Username, Conversation ID)` pair equals the key. -/
def groupOf (df : List SrcRow) (k : String × String) : List SrcRow :=
  df.filter (fun r => r.originalUsername == k.1 && r.conversationId == k.2)

/-- The consolidator over the whole source frame (analyzer.py step 3). -/
def consolidate (now platform : String) (df : List SrcRow) :
    List AnalyzedRow :=
  (groupKeys df).filterMap
    (fun k => consolidateGroup now platform k.1 k.2 (groupOf df k))

/-- Length of the match of `http\S+` or `www.\S+` at the start of `l`
(the URL-stripping regex of `clean_text_for_filtering`, analyzer.py
line 554), `none` when neither alternative matches here.  `http\S+` is
tried first; in `www.\S+` the unescaped `.` matches any character except a
newline, and each `\S+` needs at least one non-whitespace character and is
greedy. -/
def matchUrlLen (l : List Char) : Option Nat :=
  let httpLen :=
    if ("http".toList).isPrefixOf l then
      let sp := ((l.drop 4).takeWhile (fun c => !c.isWhitespace)).length
      if sp ≥ 1 then some (4 + sp) else none
    else none
  match httpLen with
  | some n => some n
  | none =>
    if ("www".toList).isPrefixOf l then
      match l.drop 3 with
      | d :: rest =>
        if d == '\n' then none
        else
          let sp := (rest.takeWhile (fun c => !c.isWhitespace)).length
          if sp ≥ 1 then some (4 + sp) else none
      | [] => none
    else none

/-- Left-to-right scan of `re.sub(r'http\S+|www.\S+', '', text)`: each
match is removed, unmatched characters are kept.  `fuel` bounds the
recursion; every step consumes at least one character, so the haystack
length suffices. -/
def stripUrlsAux : Nat → List Char → List Char
  | 0, l => l
  | _ + 1, [] => []
  | fuel + 1, c :: t =>
    match matchUrlLen (c :: t) with
    | some n => stripUrlsAux fuel (List.drop n (c :: t))
    | none => c :: stripUrlsAux fuel t

/-- `re.sub(r'http\S+|www.\S+', '', text)`. -/
def stripUrls (l : List Char) : List Char := stripUrlsAux l.length l

/-- `clean_text_for_filtering` (analyzer.py lines 551-559): strip URLs,
remove the `---` separators, collapse whitespace runs to single spaces
(`' '.join(text.split())`), and strip. -/
def cleanTextForFiltering (text : String) : String :=
  let t1 := stripUrls text.toList
  let t2 := removeSub ("---".toList) t1
  let t3 := joinSpace (wsTokens t2)
  String.mk (trimList t3)

/-- `MIN_CONTENT_LENGTH` (analyzer.py line 539). -/
def minContentLength : Nat := 50

/-- `RELEVANT_KEYWORDS` (analyzer.py lines 540-548). -/
def relevantKeywords : List String :=
  ["ai", "agi", "openai", "google", "gemini", "claude", "mistral", "llm",
   "model", "automation", " n8n", "python", "api", "workflow", "data",
   "tech", "business", "startup", "rahmetlabs", "scraping", "analyze",
   "process", "update", "news", "release", "research", "paper", "opinion",
   "thought", "develop", "build", "future", "risk", "safety", "alignment",
   "code", "coding", "launch", "feature", "limit", "rate limit",
   "context window", "token", "prompt", "engineer", "benchmark", "test"]

/-- The length filter (analyzer.py line 565). -/
def lenOk (r : AnalyzedRow) : Bool :=
  (cleanTextForFiltering r.combinedOriginalText).length ≥ minContentLength

/-- The keyword filter (analyzer.py lines 571-572): the unnormalized
combined text must contain, case-insensitively, one of the (escaped,
already lower-case) keywords. -/
def kwOk (r : AnalyzedRow) : Bool :=
  relevantKeywords.any
    (fun k => hasSub k.toList (lowerList r.combinedOriginalText.toList))

/-- `prompt_markers` (analyzer.py line 578). -/
def promptMarkers : List String :=
  ["# Prompt", "<Role>", "<Instructions>", "<Context>"]

/-- The prompt/structure filter (analyzer.py lines 578-585): no marker may
occur (case-insensitively) and at most two fenced-code-block delimiters. -/
def promptOk (r : AnalyzedRow) : Bool :=
  !(promptMarkers.any
      (fun m => hasSub (lowerList m.toList)
        (lowerList r.combinedOriginalText.toList))) &&
  countSub ("```".toList) r.combinedOriginalText.toList ≤ 2

/-- The `--platform` argument (analyzer.py lines 23-27). -/
inductive Platform where
  | twitter
  | reddit
deriving DecidableEq, Repr

/-- The `PLATFORM` string written into the `Platform` column. -/
def platformStr : Platform → String
  | .twitter => "twitter"
  | .reddit => "reddit"

/-- `content_types_to_rewrite` (analyzer.py lines 519-525). -/
def contentTypesToRewrite : Platform → List String
  | .twitter => ["Original Tweet", "Thread"]
  | .reddit => ["Reddit Post"]

/-- Outcome of one unit's pair of Gemini calls, after the retry wrapper
(`rewrite_text_gemini`, analyzer.py 193-224, under `backoff` with
`max_tries=3`): either both language responses were obtained (`ok en ru`
carries the raw response texts, before `.strip()`), or some attempt raised
and the retries were exhausted, so the exception reached the caller
(`err`). -/
inductive RwOutcome where
  | ok (en ru : String)
  | err
deriving DecidableEq, Repr

/-- One iteration of the rewrite loop (analyzer.py lines 619-667) for the
unit at position `idx` of the final filtered frame.  Returns the row as
appended to the local CSV together with a flag telling whether the
external rewrite machinery was invoked for this unit.  Blank source text
(`pd.isna(...) or not str(...).strip()`) short-circuits with the
`"Error: Empty Source Text"` sentinel in both fields; a raised rewrite call
sets both failure sentinels; a successful call stores both stripped
response texts. -/
def rewriteUnit (oracle : Nat → RwOutcome) (idx : Nat) (row : AnalyzedRow) :
    AnalyzedRow × Bool :=
  if pyStrip row.combinedOriginalText = "" then
    ({ row with rewrittenEN := "Error: Empty Source Text",
                rewrittenRU := "Error: Empty Source Text" }, false)
  else
    match oracle idx with
    | .ok en ru =>
      ({ row with rewrittenEN := pyStrip en, rewrittenRU := pyStrip ru }, true)
    | .err =>
      ({ row with rewrittenEN := "Error: Rewrite Failed (EN)",
                  rewrittenRU := "Error: Rewrite Failed (RU)" }, true)

/-- The whole rewrite loop: one `rewriteUnit` per row of the final
filtered frame, each result appended to the local CSV immediately. -/
def rewriteLoop (oracle : Nat → RwOutcome) (df : List AnalyzedRow) :
    List (AnalyzedRow × Bool) :=
  df.enum.map (fun p => rewriteUnit oracle p.1 p.2)

/-- The URLs present in the remote snapshot, as computed by the Sync
Engine (analyzer.py line 712): `set(df['First Tweet URL'].dropna())` —
plain URL presence, every row counts whatever its rewrite fields hold. -/
def remoteUrls (gsheetRows : List AnalyzedRow) : List String :=
  gsheetRows.filterMap (fun r => r.firstTweetURL)

/-- `Series.isin` on an URL cell: an NA cell is in no set. -/
def optIsIn (u : Option String) (l : List String) : Bool :=
  match u with
  | some s => l.contains s
  | none => false

/-- The local rows the Sync Engine selects for upload (analyzer.py
line 731): exactly those whose URL is absent from the remote URL set. -/
def rowsToUpload (localRows gsheetRows : List AnalyzedRow) :
    List AnalyzedRow :=
  localRows.filter (fun r => !(optIsIn r.firstTweetURL (remoteUrls gsheetRows)))

/-- `sync_local_to_gsheet` (analyzer.py 680-754): the rows handed to the
single `worksheet.append_rows` call, serialized in `TARGET_COLUMNS`
order. -/
def syncLocalToGsheet (localRows gsheetRows : List AnalyzedRow) :
    List (List String) :=
  (rowsToUpload localRows gsheetRows).map rowToTargetList

/-- Boolean insertion of `a` into `l`, placed before the first element `b`
with `le a b` false... kept after every `b` with `le b a`: the generic
insert used to embed `df.sort_values` where no claim depends on the order
of ties. -/
def insertB (le : α → α → Bool) (a : α) : List α → List α
  | [] => [a]
  | b :: t => if le b a then b :: insertB le a t else a :: b :: t

/-- Generic boolean insertion sort. -/
def insortB (le : α → α → Bool) : List α → List α
  | [] => []
  | a :: t => insertB le a (insortB le t)

/-- The three-column ordering of
`df.sort_values(by=['Original Username', 'Conversation ID',
'First Tweet Timestamp DT'])` (analyzer.py line 503), with the parsed
timestamp supplied by `parseTs`. -/
def consLe (parseTs : String → Option Nat) (a b : AnalyzedRow) : Bool :=
  if strListLt a.originalUsername.toList b.originalUsername.toList then true
  else if strListLt b.originalUsername.toList a.originalUsername.toList then false
  else if strListLt a.conversationId.toList b.conversationId.toList then true
  else if strListLt b.conversationId.toList a.conversationId.toList then false
  else (parseTs a.firstTweetTimestamp).getD 0 ≤ (parseTs b.firstTweetTimestamp).getD 0

/-- What one run of `process_data` (analyzer.py 228-678) does, as far as
the claims observe it: whether `sync_local_to_gsheet` was invoked before
the run ended, and the rewrite outcomes (row appended to the local log,
flag telling whether the external rewrite machinery ran for it). -/
structure RunResult where
  syncCalled : Bool
  rewriteOutcomes : List (AnalyzedRow × Bool)
deriving DecidableEq, Repr

/-- The rows appended to the local durable log during the run. -/
def RunResult.localAppends (r : RunResult) : List AnalyzedRow :=
  r.rewriteOutcomes.map (fun p => p.1)

/-- `process_data` (analyzer.py 228-678) in the typed model (every sheet
provides the expected columns, reads do not raise).  Parameters: the
platform, the data rows of each configured source sheet (a sheet whose
`get_all_values` held fewer than two rows contributes nothing, line 245),
the parsed local log and remote snapshot, the `Processed Timestamp` string,
the timestamp parser `parse_datetime` (line 484, `none` = `NaT`) and the
Gemini oracle.  The run:
1. returns at once — without syncing — when no source sheet had data rows
   (lines 274-277);
2. consolidates, then syncs-and-returns when no group survived (466-470);
3. drops rows with unparseable timestamps, sorts (480-504), removes
   already-processed URLs (514), filters by content type, then
   syncs-and-returns when nothing matched (530-534);
4. applies the length, keyword and prompt filters, then syncs-and-returns
   when nothing survived (597-601);
5. rewrites each surviving unit, appending each outcome to the local log,
   and finally syncs (603-672). -/
def processData (platform : Platform) (sourceTables : List (List SrcRow))
    (localState gsheetState : List AnalyzedRow) (now : String)
    (parseTs : String → Option Nat) (oracle : Nat → RwOutcome) : RunResult :=
  let tables := sourceTables.filter (fun t => !t.isEmpty)
  if tables.isEmpty then
    { syncCalled := false, rewriteOutcomes := [] }
  else
    let dfSrc := tables.foldr (· ++ ·) []
    let processedSet :=
      loadProcessedUrls localState ++ loadProcessedUrls gsheetState
    let dfCons := consolidate now (platformStr platform) dfSrc
    if dfCons.isEmpty then
      { syncCalled := true, rewriteOutcomes := [] }
    else
      let dfTs := dfCons.filter (fun r => (parseTs r.firstTweetTimestamp).isSome)
      let dfSorted := insortB (consLe parseTs) dfTs
      let dfNew := dfSorted.filter (fun r => !(optIsIn r.firstTweetURL processedSet))
      let dfTyped := dfNew.filter
        (fun r => (contentTypesToRewrite platform).contains r.contentType)
      if dfTyped.isEmpty then
        { syncCalled := true, rewriteOutcomes := [] }
      else
        let dfLen := dfTyped.filter lenOk
        let dfKw := dfLen.filter kwOk
        let dfFinal := dfKw.filter promptOk
        if dfFinal.isEmpty then
          { syncCalled := true, rewriteOutcomes := [] }
        else
          { syncCalled := true, rewriteOutcomes := rewriteLoop oracle dfFinal }

/-- The scraper's per-user state (`last_seen_ids.json`): an association of
usernames to last-seen tweet ids, mirroring the Python dict.
`last_seen_state.get(username, 0)` (scraper.py line 168). -/
def stGet : List (String × Nat) → String → Nat
  | [], _ => 0
  | (k, v) :: t, u => if k = u then v else stGet t u

/-- Python dict assignment `state[u] = v` on the association list. -/
def stSet (st : List (String × Nat)) (u : String) (v : Nat) :
    List (String × Nat) :=
  match st with
  | [] => [(u, v)]
  | (k, w) :: t => if k = u then (u, v) :: t else (k, w) :: stSet t u v

/-- The per-user body of `run_scrape_cycle` (scraper.py 164-237).
`fetchRes` is `none` when the profile lookup failed, the user was not
found, or fetching raised (state untouched); otherwise it carries the ids
of the fetched tweets.  With new tweets (`id > last_seen`), the stored id
becomes the maximum new id (lines 190-228).  With none, a user absent from
the initial state keys is initialized to the maximum fetched id when that
exceeds the current value (lines 230-237). -/
def processUser (initKeys : List String) (st : List (String × Nat))
    (u : String) (fetchRes : Option (List Nat)) : List (String × Nat) :=
  match fetchRes with
  | none => st
  | some fetched =>
    let lastSeen := stGet st u
    let newIds := fetched.filter (fun i => decide (i > lastSeen))
    if !newIds.isEmpty then
      let maxNew := newIds.foldl max lastSeen
      if maxNew > lastSeen then stSet st u maxNew else st
    else
      if !(initKeys.contains u) && !fetched.isEmpty then
        let latest := fetched.foldl max 0
        if latest > lastSeen then stSet st u latest else st
      else st

/-- The state after `run_scrape_cycle` has looped over all target
usernames: `steps` pairs each username with its fetch result, in loop
order. -/
def runScrapeCycleState (initKeys : List String)
    (steps : List (String × Option (List Nat)))
    (st : List (String × Nat)) : List (String × Nat) :=
  steps.foldl (fun s p => processUser initKeys s p.1 p.2) st

/-- CPython semantics of a bare `exit()` call: it raises
`SystemExit(None)`, and a `None` code terminates the process with
status 0. -/
def sysExitBareCode : Nat := 0

/-- Exit status of a CPython process whose top level runs to completion
without an uncaught exception. -/
def normalEndCode : Nat := 0

/-- The ways an analyzer process run can end, read off src/analyzer.py:
the module-level config validation (lines 76-89), the Google-Sheets and
Gemini setup blocks (119-156), and the `__main__` wrapper around
`process_data` (757-769). -/
inductive AnalyzerRun where
  | configMissing
  | sheetSetupFail
  | geminiSetupFail
  | mainOk
  | mainInterrupted
  | mainRaised
deriving DecidableEq, Repr

/-- The process exit status on each ending.  Config validation and the two
setup failure blocks call the bare `exit()`; the `__main__` wrapper
catches `KeyboardInterrupt` and every `Exception`, sends a notification
and falls off the end of the module, so the process ends normally. -/
def analyzerExitCode : AnalyzerRun → Nat
  | .configMissing => sysExitBareCode
  | .sheetSetupFail => sysExitBareCode
  | .geminiSetupFail => sysExitBareCode
  | .mainOk => normalEndCode
  | .mainInterrupted => normalEndCode
  | .mainRaised => normalEndCode

/-- Whether the ending attempts a Telegram notification before the process
ends.  The config-validation block (lines 78-89) only prints and exits;
every other listed ending calls `send_telegram_notification`. -/
def analyzerNotifies : AnalyzerRun → Bool
  | .configMissing => false
  | .sheetSetupFail => true
  | .geminiSetupFail => true
  | .mainOk => true
  | .mainInterrupted => true
  | .mainRaised => true

/-- Transport outcomes of the `requests.post` + `raise_for_status` +
success-print block inside `send_telegram_notification`: it either
returns, raises a `requests.exceptions.RequestException`, or raises some
other `Exception` (which also covers the success-print's possible
`IndexError`). -/
inductive TgSend where
  | posted
  | reqExn
  | otherExn
deriving DecidableEq, Repr

/-- Python slicing `message[:4096]` (a slice never raises and yields at
most 4096 characters). -/
def pySlice4096 (s : String) : String := String.mk (s.data.take 4096)

/-- `send_telegram_notification` (analyzer.py 97-113; textually identical
in scraper.py 38-60 and src/scrapers/reddit_scraper.py 78-94).  The result
is `Except`-valued so that an exception propagating to the caller would be
an `.error`; the value carries the payload text handed to the transport,
`none` when the token or chat id is unset and the function returns before
sending.  Both `except` arms swallow their exception, so every branch is
`.ok`. -/
def sendTelegramNotification (tokenSet chatSet : Bool)
    (transport : String → TgSend) (message : String) :
    Except String (Option String) :=
  if !tokenSet || !chatSet then
    .ok none
  else
    let truncated := pySlice4096 message
    match transport truncated with
    | .posted => .ok (some truncated)
    | .reqExn => .ok (some truncated)
    | .otherExn => .ok (some truncated)

/-! ### Helper lemmas -/

theorem mem_sortByTs {a : SrcRow} {g : List SrcRow} :
    a ∈ sortByTs g ↔ a ∈ g :=
  (List.perm_insertionSort tsLe g).mem_iff

theorem mem_coreRows {a : SrcRow} {author : String} {g : List SrcRow} :
    a ∈ coreRows author g ↔
      a ∈ g ∧ replyToOther author a.tweetText = false := by
  simp [coreRows, List.mem_filter, mem_sortByTs]

theorem pairwise_coreRows (author : String) (g : List SrcRow) :
    List.Pairwise tsLe (coreRows author g) :=
  List.Pairwise.sublist (List.filter_sublist _)
    (List.sorted_insertionSort tsLe g)

theorem consolidateGroup_isSome {now platform author convId : String}
    {g : List SrcRow} :
    (consolidateGroup now platform author convId g).isSome = true ↔
      coreRows author g ≠ [] := by
  unfold consolidateGroup
  cases h : coreRows author g with
  | nil => simp
  | cons f t => cases t <;> simp

theorem mem_loadProcessedUrls {df : List AnalyzedRow} {u : String} :
    u ∈ loadProcessedUrls df ↔
      ∃ r ∈ df, processedRow r = true ∧ r.firstTweetURL = some u := by
  simp only [loadProcessedUrls, List.mem_filterMap, List.mem_filter]
  constructor
  · rintro ⟨r, ⟨hr, hp⟩, hu⟩
    exact ⟨r, hr, hp, hu⟩
  · rintro ⟨r, hr, hp, hu⟩
    exact ⟨r, ⟨hr, hp⟩, hu⟩

theorem rewriteUnit_fst_combined (oracle : Nat → RwOutcome) (idx : Nat)
    (row : AnalyzedRow) :
    (rewriteUnit oracle idx row).1.combinedOriginalText =
      row.combinedOriginalText := by
  unfold rewriteUnit
  split
  · rfl
  · cases oracle idx <;> rfl

theorem mem_localAppends_processData {platform : Platform}
    {sourceTables : List (List SrcRow)}
    {localState gsheetState : List AnalyzedRow} {now : String}
    {parseTs : String → Option Nat} {oracle : Nat → RwOutcome}
    {p : AnalyzedRow × Bool}
    (hp : p ∈ (processData platform sourceTables localState gsheetState now
      parseTs oracle).rewriteOutcomes) :
    ∃ idx row, p = rewriteUnit oracle idx row := by
  unfold processData at hp
  dsimp only at hp
  split at hp
  · simp at hp
  · split at hp
    · simp at hp
    · split at hp
      · simp at hp
      · split at hp
        · simp at hp
        · simp only [rewriteLoop, List.mem_map] at hp
          obtain ⟨q, _, hq⟩ := hp
          exact ⟨q.1, q.2, hq.symm⟩

theorem stGet_stSet (st : List (String × Nat)) (u : String) (v : Nat)
    (w : String) :
    stGet (stSet st u v) w = if u = w then v else stGet st w := by
  induction st with
  | nil =>
    by_cases h : u = w <;> simp [stSet, stGet, h]
  | cons p t ih =>
    obtain ⟨k, x⟩ := p
    by_cases hk : k = u
    · subst hk
      by_cases hw : k = w <;> simp [stSet, stGet, hw]
    · by_cases hw : k = w
      · subst hw
        have : ¬ u = k := fun h => hk h.symm
        simp [stSet, stGet, hk, this]
      · simp [stSet, stGet, hk, hw, ih]

theorem processUser_mono (initKeys : List String) (st : List (String × Nat))
    (u : String) (fr : Option (List Nat)) (w : String) :
    stGet st w ≤ stGet (processUser initKeys st u fr) w := by
  unfold processUser
  cases fr with
  | none => exact le_refl _
  | some fetched =>
    dsimp only
    split
    · split
      · rename_i hgt
        rw [stGet_stSet]
        split
        · rename_i hw
          subst hw
          exact le_of_lt hgt
        · exact le_refl _
      · exact le_refl _
    · split
      · split
        · rename_i hgt
          rw [stGet_stSet]
          split
          · rename_i hw
            subst hw
            exact le_of_lt hgt
          · exact le_refl _
        · exact le_refl _
      · exact le_refl _

/-! ### The claims -/

/-- A blank analyzed row, used to build concrete rows in witnesses and
counterexamples. -/
def blankRow : AnalyzedRow :=
  { processedTimestamp := "", originalUsername := "", originalDisplayName := "",
    firstTweetTimestamp := "", combinedOriginalText := "", firstTweetURL := none,
    likes := "", retweets := "", replies := "", quotes := "", bookmarks := "",
    views := "", contentType := "", conversationId := "", rewrittenEN := "",
    rewrittenRU := "", sourceRowCount := "", platform := "", subreddit := "",
    score := "", numComments := "", postId := "" }

/-- A local-log row with an empty-string URL cell and successful rewrite
fields: it passes the code's `notna` test but not the spec's "non-empty"
wording. -/
def c1Row : AnalyzedRow :=
  { blankRow with firstTweetURL := some "", rewrittenEN := "done",
                  rewrittenRU := "done" }

/-- Claim C1 is false as stated: on a table whose only row has an
empty-string URL cell and successful rewrites, `load_processed_urls`
returns that empty URL, although the row fails the spec's predicate
(whose first conjunct demands a non-empty canonical URL).  The code only
tests `notna`, and an empty string is not NA. -/
theorem c1_counterexample :
    loadProcessedUrls [c1Row] = [""] ∧ specProcessedRow c1Row = false :=
  ⟨rfl, rfl⟩

/-- Claim C1 (amended): a record counts as successfully processed iff its
URL cell is present (non-NA — the empty string counts as present), both
rewrite fields are non-empty, and neither begins with `"Error:"`; for every
input table, `load_processed_urls` returns exactly the URLs of the rows
satisfying this predicate. -/
theorem c1_load_processed_urls_exact (df : List AnalyzedRow) (u : String) :
    u ∈ loadProcessedUrls df ↔
      ∃ r ∈ df, r.firstTweetURL = some u ∧
        r.rewrittenEN ≠ "" ∧ r.rewrittenRU ≠ "" ∧
        strStarts "Error:" r.rewrittenEN = false ∧
        strStarts "Error:" r.rewrittenRU = false := by
  rw [mem_loadProcessedUrls]
  constructor
  · rintro ⟨r, hr, hp, hu⟩
    simp only [processedRow, Bool.and_eq_true, bne_iff_ne, ne_eq,
      Bool.not_eq_true'] at hp
    obtain ⟨⟨⟨⟨-, h1⟩, h2⟩, h3⟩, h4⟩ := hp
    exact ⟨r, hr, hu, h1, h2, h3, h4⟩
  · rintro ⟨r, hr, hu, h1, h2, h3, h4⟩
    refine ⟨r, hr, ?_, hu⟩
    simp only [processedRow, Bool.and_eq_true, bne_iff_ne, ne_eq,
      Bool.not_eq_true']
    exact ⟨⟨⟨⟨by simp [hu], h1⟩, h2⟩, h3⟩, h4⟩

/-- Claim C2 is false as stated: a run whose configured source sheets
contain no data rows (here: one sheet with only a header) returns from
`process_data` at the `if not all_source_dfs` check (analyzer.py 274-277)
without ever invoking `sync_local_to_gsheet`. -/
theorem c2_counterexample :
    (processData .twitter [[]] [] [] "" (fun _ => none)
      (fun _ => .err)).syncCalled = false :=
  rfl

/-- Claim C2 (amended): on every run whose source read yields at least one
data row (and, in this typed model, no stage-fatal schema error or read
exception occurs), `sync_local_to_gsheet` is invoked before `process_data`
returns — including all the early exits that found nothing new to rewrite;
a run that read no source data at all returns without syncing. -/
theorem c2_sync_called (platform : Platform)
    (sourceTables : List (List SrcRow))
    (localState gsheetState : List AnalyzedRow) (now : String)
    (parseTs : String → Option Nat) (oracle : Nat → RwOutcome)
    (h : sourceTables.filter (fun t => !t.isEmpty) ≠ []) :
    (processData platform sourceTables localState gsheetState now parseTs
      oracle).syncCalled = true := by
  unfold processData
  dsimp only
  rw [if_neg (by simpa using h)]
  split
  · rfl
  · split
    · rfl
    · split
      · rfl
      · rfl

/-- A source row relevant enough to reach the rewrite stage: long text
containing a keyword, original-tweet type. -/
def aiSrcRow : SrcRow :=
  { originalUsername := "alice", displayName := "Alice",
    firstTweetTimestamp := "2024-01-01 10:00:00",
    tweetText := "Sharing some thoughts about ai research and llm models, a fairly long update today.",
    firstTweetURL := "https://x.com/alice/status/1",
    likes := 1, retweets := 2, replies := 3, quotes := 4, bookmarks := 5,
    views := 6, tweetType := "Original Tweet", conversationId := "conv1" }

/-- Witness for C2 (amended) at a concrete run with one source row. -/
theorem c2_witness :
    [[aiSrcRow]].filter (fun t => !t.isEmpty) ≠ [] ∧
    (processData .twitter [[aiSrcRow]] [] [] "now" (fun _ => some 0)
      (fun _ => .err)).syncCalled = true :=
  ⟨by decide, c2_sync_called .twitter [[aiSrcRow]] [] [] "now"
    (fun _ => some 0) (fun _ => .err) (by decide)⟩

/-- Claim C8 is false as stated: on configuration-validation failure the
analyzer runs the bare `exit()` (analyzer.py lines 78-89; identically
scraper.py line 35), which raises `SystemExit(None)` and terminates the
process with status 0, not a non-zero status — and this path sends no
notification (the Telegram credentials are what just failed
validation). -/
theorem c8_counterexample :
    analyzerExitCode .configMissing = 0 ∧
    analyzerNotifies .configMissing = false :=
  ⟨rfl, rfl⟩

/-- Claim C8 (amended): the process exits with status 0 in every case —
successful completion, validated early exit, configuration-validation
failure (bare `exit()`), service-setup failure (bare `exit()`), and an
unrecovered top-level exception or interrupt (caught and swallowed by the
`__main__` handler).  Every ending except the configuration-validation
failure attempts a best-effort notification; the validation block only
prints. -/
theorem c8_exit_codes (run : AnalyzerRun) :
    analyzerExitCode run = 0 ∧
    (analyzerNotifies run = false ↔ run = .configMissing) := by
  cases run <;>
    simp [analyzerExitCode, analyzerNotifies, sysExitBareCode, normalEndCode]

/-- Claim C9: `send_telegram_notification` hands the transport at most the
first 4096 characters of the message, and every branch — including both
exception arms — returns normally, so no exception propagates to the
caller whatever the transport does. -/
theorem c9_notification_safe (tokenSet chatSet : Bool)
    (transport : String → TgSend) (message : String) :
    (∃ o, sendTelegramNotification tokenSet chatSet transport message =
        .ok o ∧ (o = none ∨ o = some (pySlice4096 message))) ∧
    (pySlice4096 message).length ≤ 4096 ∧
    (pySlice4096 message).data = message.data.take 4096 := by
  refine ⟨?_, ?_, rfl⟩
  · unfold sendTelegramNotification
    match tokenSet, chatSet with
    | false, _ => exact ⟨none, rfl, Or.inl rfl⟩
    | true, false => exact ⟨none, rfl, Or.inl rfl⟩
    | true, true =>
      cases h : transport (pySlice4096 message) <;>
        exact ⟨some (pySlice4096 message), by simp [h], Or.inr rfl⟩
  · have h : (pySlice4096 message).length = (message.data.take 4096).length :=
      rfl
    rw [h, List.length_take]
    omega

/-- Claim C10: across one scrape cycle, each user's stored last-seen tweet
id never decreases — `run_scrape_cycle` only ever overwrites an entry with
a strictly larger id (maximum of the newly fetched ids, or the
initialization for a user absent from the initial state). -/
theorem c10_last_seen_monotone (initKeys : List String)
    (steps : List (String × Option (List Nat)))
    (st : List (String × Nat)) (u : String) :
    stGet st u ≤ stGet (runScrapeCycleState initKeys steps st) u := by
  induction steps generalizing st with
  | nil => exact le_refl _
  | cons p t ih =>
    exact le_trans (processUser_mono initKeys st p.1 p.2 u)
      (ih (processUser initKeys st p.1 p.2))

theorem optIsIn_remoteUrls {r : AnalyzedRow} {gs : List AnalyzedRow} :
    optIsIn r.firstTweetURL (remoteUrls gs) = true ↔
      ∃ g ∈ gs, g.firstTweetURL.isSome = true ∧
        g.firstTweetURL = r.firstTweetURL := by
  cases hu : r.firstTweetURL with
  | none =>
    simp only [optIsIn]
    constructor
    · intro h; exact absurd h (by simp)
    · rintro ⟨g, _, hs, he⟩
      rw [he] at hs
      exact absurd hs (by simp)
  | some s =>
    simp only [optIsIn, List.contains_iff_exists_mem_beq, remoteUrls,
      List.mem_filterMap]
    constructor
    · rintro ⟨x, ⟨g, hg, hgu⟩, hbeq⟩
      have hx : s = x := by simpa using hbeq
      subst hx
      exact ⟨g, hg, by simp [hgu], hgu⟩
    · rintro ⟨g, hg, -, he⟩
      exact ⟨s, ⟨g, hg, he⟩, by simp⟩

/-- Claim C4: the Sync Engine's remote-known set is URL presence only —
a local row is selected for upload iff no remote row (whatever its rewrite
fields, error records included) carries the same non-NA URL — and the
single bulk `append_rows` call receives exactly the selected rows
serialized in `TARGET_COLUMNS` order. -/
theorem c4_sync_upload (localRows gsheetRows : List AnalyzedRow) :
    (∀ r, r ∈ rowsToUpload localRows gsheetRows ↔
        r ∈ localRows ∧
          ¬ ∃ g ∈ gsheetRows, g.firstTweetURL.isSome = true ∧
              g.firstTweetURL = r.firstTweetURL) ∧
    (∀ r ∈ localRows, ∀ g ∈ gsheetRows,
        g.firstTweetURL = r.firstTweetURL → r.firstTweetURL.isSome = true →
        r ∉ rowsToUpload localRows gsheetRows) ∧
    syncLocalToGsheet localRows gsheetRows =
      (rowsToUpload localRows gsheetRows).map rowToTargetList := by
  have hmem : ∀ r, r ∈ rowsToUpload localRows gsheetRows ↔
      r ∈ localRows ∧
        ¬ ∃ g ∈ gsheetRows, g.firstTweetURL.isSome = true ∧
            g.firstTweetURL = r.firstTweetURL := by
    intro r
    simp only [rowsToUpload, List.mem_filter]
    constructor
    · rintro ⟨h1, h2⟩
      refine ⟨h1, fun hex => ?_⟩
      rw [optIsIn_remoteUrls.mpr hex] at h2
      simp at h2
    · rintro ⟨h1, h2⟩
      refine ⟨h1, ?_⟩
      have hfalse : optIsIn r.firstTweetURL (remoteUrls gsheetRows) = false := by
        rcases Bool.eq_false_or_eq_true
            (optIsIn r.firstTweetURL (remoteUrls gsheetRows)) with h | h
        · exact absurd (optIsIn_remoteUrls.mp h) h2
        · exact h
      simp [hfalse]
  refine ⟨hmem, ?_, rfl⟩
  intro r hr g hg hge hs hup
  have h := (hmem r).mp hup
  exact h.2 ⟨g, hg, by rw [hge]; exact hs, hge⟩

/-- A permanently failed local-log record (both fields carry the failure
sentinels) whose URL is also present remotely. -/
def errLogRow : AnalyzedRow :=
  { blankRow with firstTweetURL := some "https://x.com/alice/status/9",
                  rewrittenEN := "Error: Rewrite Failed (EN)",
                  rewrittenRU := "Error: Rewrite Failed (RU)" }

/-- Witness for C4 at a concrete pair of tables: a local failure record
whose URL already exists remotely (as the same error record) is not
uploaded again. -/
theorem c4_witness : errLogRow ∉ rowsToUpload [errLogRow] [errLogRow] :=
  fun h =>
    (((c4_sync_upload [errLogRow] [errLogRow]).1 errLogRow).mp h).2
      ⟨errLogRow, by decide, by decide, rfl⟩

/-- Claim C5: a conversation group yields a Content Unit iff at least one
of its rows does not match the reply-to-another-user pattern (leading
whitespace, `'@'`, then a word character, and not the author's own
username up to a word boundary, case-insensitively), and every row
retained into the unit's core fails that pattern. -/
theorem c5_ownership_filter (now platform author convId : String)
    (g : List SrcRow) :
    ((consolidateGroup now platform author convId g).isSome = true ↔
      ∃ r ∈ g, replyToOther author r.tweetText = false) ∧
    ∀ r ∈ coreRows author g, replyToOther author r.tweetText = false := by
  constructor
  · rw [consolidateGroup_isSome]
    constructor
    · intro hne
      obtain ⟨r, hr⟩ := List.exists_mem_of_ne_nil _ hne
      exact ⟨r, (mem_coreRows.mp hr).1, (mem_coreRows.mp hr).2⟩
    · rintro ⟨r, hr, hpred⟩ hnil
      have hmem : r ∈ coreRows author g := mem_coreRows.mpr ⟨hr, hpred⟩
      rw [hnil] at hmem
      exact absurd hmem (List.not_mem_nil r)
  · intro r hr
    exact (mem_coreRows.mp hr).2

/-- Scenario A rows: alice's own tweet and her reply to bob in the same
conversation. -/
def srcHello : SrcRow :=
  { originalUsername := "alice", displayName := "Alice",
    firstTweetTimestamp := "2024-01-01 10:00:00", tweetText := "hello",
    firstTweetURL := "https://x.com/alice/status/1", likes := 0,
    retweets := 0, replies := 0, quotes := 0, bookmarks := 0, views := 0,
    tweetType := "Original Tweet", conversationId := "conv1" }

/-- Scenario A second row: a reply addressed to bob. -/
def srcReplyBob : SrcRow :=
  { srcHello with firstTweetTimestamp := "2024-01-01 11:00:00",
                  tweetText := "@bob reply",
                  firstTweetURL := "https://x.com/alice/status/2",
                  tweetType := "Reply" }

/-- Witness for C5 on Scenario A: the group is emitted because one row
survives, and every core row fails the reply-to-other pattern. -/
theorem c5_witness :
    (consolidateGroup "now" "twitter" "alice" "conv1"
      [srcHello, srcReplyBob]).isSome = true ∧
    ∀ r ∈ coreRows "alice" [srcHello, srcReplyBob],
      replyToOther "alice" r.tweetText = false :=
  ⟨((c5_ownership_filter "now" "twitter" "alice" "conv1"
      [srcHello, srcReplyBob]).1).mpr ⟨srcHello, by decide, by decide⟩,
   (c5_ownership_filter "now" "twitter" "alice" "conv1"
      [srcHello, srcReplyBob]).2⟩

/-- Claim C6: a group with one surviving row keeps that row's original
content-type tag with a source row count of 1 and its own text; a group
with more than one surviving row becomes a `"Thread"` whose combined text
joins the surviving rows' texts, in timestamp order, with the fixed
separator, whose source row count is the number of surviving rows, and
whose engagement metrics and timestamp come from the first surviving
row. -/
theorem c6_thread_classification (now platform author convId : String)
    (g : List SrcRow) :
    (∀ r, coreRows author g = [r] →
        consolidateGroup now platform author convId g =
          some (mkSingleRow now platform convId r) ∧
        (mkSingleRow now platform convId r).contentType = r.tweetType ∧
        (mkSingleRow now platform convId r).sourceRowCount = "1" ∧
        (mkSingleRow now platform convId r).combinedOriginalText =
          r.tweetText) ∧
    (∀ f s t, coreRows author g = f :: s :: t →
        ∃ u, consolidateGroup now platform author convId g = some u ∧
          u.contentType = "Thread" ∧
          u.sourceRowCount = toString (coreRows author g).length ∧
          u.combinedOriginalText =
            joinSep thSep ((coreRows author g).map (·.tweetText)) ∧
          u.firstTweetTimestamp = f.firstTweetTimestamp ∧
          u.likes = toString f.likes ∧ u.retweets = toString f.retweets ∧
          u.replies = toString f.replies ∧ u.quotes = toString f.quotes ∧
          u.bookmarks = toString f.bookmarks ∧
          u.views = toString f.views) ∧
    List.Pairwise tsLe (coreRows author g) := by
  refine ⟨?_, ?_, pairwise_coreRows author g⟩
  · intro r h
    refine ⟨?_, rfl, rfl, rfl⟩
    unfold consolidateGroup
    rw [h]
  · intro f s t h
    refine ⟨mkThreadRow now platform convId (coreRows author g) f,
      ?_, rfl, rfl, rfl, rfl, rfl, rfl, rfl, rfl, rfl, rfl⟩
    unfold consolidateGroup
    rw [h]

/-- Scenario B rows: two retained parts of one thread by alice. -/
def srcPart1 : SrcRow :=
  { srcHello with tweetText := "part 1" }

/-- Scenario B second row. -/
def srcPart2 : SrcRow :=
  { srcHello with firstTweetTimestamp := "2024-01-01 11:00:00",
                  tweetText := "part 2",
                  firstTweetURL := "https://x.com/alice/status/2" }

/-- Witness for C6 on Scenario B: both rows are retained and the emitted
unit is a thread whose combined text is
`"part 1\n\n---\n\npart 2"` with `source_row_count` 2. -/
theorem c6_witness :
    ∃ u, consolidateGroup "now" "twitter" "alice" "conv1"
        [srcPart1, srcPart2] = some u ∧
      u.contentType = "Thread" ∧
      u.sourceRowCount =
        toString (coreRows "alice" [srcPart1, srcPart2]).length ∧
      u.combinedOriginalText =
        joinSep thSep
          ((coreRows "alice" [srcPart1, srcPart2]).map (·.tweetText)) ∧
      u.firstTweetTimestamp = srcPart1.firstTweetTimestamp ∧
      u.likes = toString srcPart1.likes ∧
      u.retweets = toString srcPart1.retweets ∧
      u.replies = toString srcPart1.replies ∧
      u.quotes = toString srcPart1.quotes ∧
      u.bookmarks = toString srcPart1.bookmarks ∧
      u.views = toString srcPart1.views :=
  (c6_thread_classification "now" "twitter" "alice" "conv1"
    [srcPart1, srcPart2]).2.1 srcPart1 srcPart2 [] (by decide)

/-- Claim C7: a unit whose source text is empty or whitespace-only is
recorded with the distinct `"Error: Empty Source Text"` sentinel in both
rewrite fields and the external rewrite machinery (hence its retry
wrapper) is never invoked for it. -/
theorem c7_empty_source (oracle : Nat → RwOutcome) (idx : Nat)
    (row : AnalyzedRow) (h : pyStrip row.combinedOriginalText = "") :
    rewriteUnit oracle idx row =
      ({ row with rewrittenEN := "Error: Empty Source Text",
                  rewrittenRU := "Error: Empty Source Text" }, false) := by
  unfold rewriteUnit
  rw [if_pos h]

/-- A consolidated row whose source text is whitespace-only. -/
def blankWsRow : AnalyzedRow :=
  { blankRow with combinedOriginalText := "   " }

/-- Witness for C7 at a whitespace-only unit. -/
theorem c7_witness :
    rewriteUnit (fun _ => .err) 0 blankWsRow =
      ({ blankWsRow with rewrittenEN := "Error: Empty Source Text",
                         rewrittenRU := "Error: Empty Source Text" }, false) :=
  c7_empty_source (fun _ => .err) 0 blankWsRow (by decide)

/-- Claim C3 is false as stated: when the pair of rewrite calls succeeds
but the English response strips to the empty string, the persisted record
has `Rewritten EN` empty and `Rewritten RU` filled — one rewrite field
filled and the other empty, with no error sentinel in either. -/
theorem c3_counterexample :
    ((processData .twitter [[aiSrcRow]] [] [] "now" (fun _ => some 0)
        (fun _ => .ok "" "filled")).localAppends.map
      (fun r => (r.rewrittenEN, r.rewrittenRU))) = [("", "filled")] := by
  decide

/-- Claim C3 (amended): provided every successful pair of rewrite calls
returns (after stripping) non-empty texts that do not begin with
`"Error:"`, every record appended to the local log either carries two such
texts, or carries the empty-source sentinel in both fields, or carries the
two matching failure sentinels — a failure of either language call never
leaves one field filled and the other empty. -/
theorem c3_sentinel_atomicity (platform : Platform)
    (sourceTables : List (List SrcRow))
    (localState gsheetState : List AnalyzedRow) (now : String)
    (parseTs : String → Option Nat) (oracle : Nat → RwOutcome)
    (hOracle : ∀ i en ru, oracle i = .ok en ru →
      pyStrip en ≠ "" ∧ strStarts "Error:" (pyStrip en) = false ∧
      pyStrip ru ≠ "" ∧ strStarts "Error:" (pyStrip ru) = false) :
    ∀ r ∈ (processData platform sourceTables localState gsheetState now
        parseTs oracle).localAppends,
      (r.rewrittenEN ≠ "" ∧ strStarts "Error:" r.rewrittenEN = false ∧
       r.rewrittenRU ≠ "" ∧ strStarts "Error:" r.rewrittenRU = false) ∨
      (r.rewrittenEN = "Error: Empty Source Text" ∧
       r.rewrittenRU = "Error: Empty Source Text") ∨
      (r.rewrittenEN = "Error: Rewrite Failed (EN)" ∧
       r.rewrittenRU = "Error: Rewrite Failed (RU)") := by
  intro r hr
  simp only [RunResult.localAppends, List.mem_map] at hr
  obtain ⟨p, hp, hpr⟩ := hr
  obtain ⟨idx, row, hrw⟩ := mem_localAppends_processData hp
  subst hpr
  rw [hrw]
  unfold rewriteUnit
  split
  · right; left; exact ⟨rfl, rfl⟩
  · cases ho : oracle idx with
    | ok en ru =>
      obtain ⟨h1, h2, h3, h4⟩ := hOracle idx en ru ho
      left
      exact ⟨h1, h2, h3, h4⟩
    | err =>
      right; right; exact ⟨rfl, rfl⟩

/-- The row the C3 witness run appends: aiSrcRow's consolidated unit with
both stripped rewrite texts stored. -/
def c3GoodRow : AnalyzedRow :=
  { mkSingleRow "now" "twitter" "conv1" aiSrcRow with
      rewrittenEN := pyStrip "Rewritten EN body",
      rewrittenRU := pyStrip "Rewritten RU body" }

/-- Witness for C3 (amended) on a concrete run whose oracle returns
well-formed texts. -/
theorem c3_witness :
    c3GoodRow ∈ (processData .twitter [[aiSrcRow]] [] [] "now"
        (fun _ => some 0)
        (fun _ => .ok "Rewritten EN body" "Rewritten RU body")).localAppends ∧
    ((c3GoodRow.rewrittenEN ≠ "" ∧
      strStarts "Error:" c3GoodRow.rewrittenEN = false ∧
      c3GoodRow.rewrittenRU ≠ "" ∧
      strStarts "Error:" c3GoodRow.rewrittenRU = false) ∨
     (c3GoodRow.rewrittenEN = "Error: Empty Source Text" ∧
      c3GoodRow.rewrittenRU = "Error: Empty Source Text") ∨
     (c3GoodRow.rewrittenEN = "Error: Rewrite Failed (EN)" ∧
      c3GoodRow.rewrittenRU = "Error: Rewrite Failed (RU)")) := by
  have hm : c3GoodRow ∈ (processData .twitter [[aiSrcRow]] [] [] "now"
      (fun _ => some 0)
      (fun _ => .ok "Rewritten EN body" "Rewritten RU body")).localAppends := by
    decide
  refine ⟨hm, ?_⟩
  exact c3_sentinel_atomicity .twitter [[aiSrcRow]] [] [] "now"
    (fun _ => some 0) (fun _ => .ok "Rewritten EN body" "Rewritten RU body")
    (by
      intro i en ru h
      injection h with he hr
      subst he
      subst hr
      exact ⟨by decide, by decide, by decide, by decide⟩)
    c3GoodRow hm

end Xscraper
